import Mathlib

/-!
Verification of the Asar archive reader in SharedProcessors/AsarVersioner.py
(class AsarVersioner).  The Python methods _asar_opener, _extract_package_json,
get_asar_info and main are embedded as pure Lean functions over a byte-list
model of the archive file.  Python library primitives used by that code
(open/seek/read/tell on a binary file handle, struct.unpack with format
character I, bytes.decode with the utf-8 codec, json.loads, int(), dict
subscripting, dict.get) are modelled explicitly below, matching CPython
semantics for the behaviours the code exercises: read with a negative length
reads to end of file, struct.unpack demands a buffer of exactly the format
size, json.loads parses the whole input and rejects trailing data, and
dict.get on a non-dict raises AttributeError.  Numeric JSON literals are
modelled as integers (the archives read by this processor carry integer
sizes and decimal-string offsets); the \u string escape and underscore
digit separators of int() are not modelled, and none of the claims uses
them.
-/

/-- A decoded JSON value, as produced by Python's json.loads: an object is an
association list with unique keys (later duplicates overwrite earlier ones,
as in a Python dict). -/
inductive JSON where
  | null : JSON
  | bool (b : Bool) : JSON
  | num (n : Int) : JSON
  | str (s : String) : JSON
  | arr (xs : List JSON) : JSON
  | obj (kvs : List (String × JSON)) : JSON

/-- Lookup in a Python-dict association list: first entry with the key. -/
def assocLookup : List (String × JSON) → String → Option JSON
  | [], _ => none
  | (k, v) :: rest, key => if k = key then some v else assocLookup rest key

/-- Dict insertion: overwrite the value at an existing key, else append. -/
def objInsert (kvs : List (String × JSON)) (k : String) (v : JSON) : List (String × JSON) :=
  if kvs.any (fun p => p.fst = k) then
    kvs.map (fun p => if p.fst = k then (k, v) else p)
  else kvs ++ [(k, v)]

/-- JSON whitespace skipping (space, tab, newline, carriage return). -/
def skipWs : List Char → List Char
  | c :: rest =>
    if c = ' ' || c = '\t' || c = '\n' || c = '\r' then skipWs rest else c :: rest
  | [] => []

/-- JSON string escape characters recognised by the model. -/
def escChar (e : Char) : Option Char :=
  if e = '"' then some '"'
  else if e = '\\' then some '\\'
  else if e = '/' then some '/'
  else if e = 'n' then some '\n'
  else if e = 't' then some '\t'
  else if e = 'r' then some '\r'
  else if e = 'b' then some (Char.ofNat 8)
  else if e = 'f' then some (Char.ofNat 12)
  else none

/-- Body of a JSON string literal, after the opening quote: returns the
decoded characters and the input after the closing quote. -/
def parseStringAux : List Char → Option (List Char × List Char)
  | [] => none
  | c :: rest =>
    if c = '"' then some ([], rest)
    else if c = '\\' then
      match rest with
      | e :: rest2 =>
        match escChar e with
        | some ch =>
          match parseStringAux rest2 with
          | some (s, r) => some (ch :: s, r)
          | none => none
        | none => none
      | [] => none
    else if c.toNat < 32 then none
    else
      match parseStringAux rest with
      | some (s, r) => some (c :: s, r)
      | none => none

/-- Consume a maximal run of decimal digits, accumulating their value. -/
def parseDigitsAux : List Char → Nat → Nat × List Char
  | c :: rest, acc =>
    if c.isDigit then parseDigitsAux rest (acc * 10 + (c.toNat - 48)) else (acc, c :: rest)
  | [], acc => (acc, [])

/-- A JSON integer literal (digits only; a following fraction or exponent is
rejected, as floating point is outside the model). -/
def parseDigits (cs : List Char) : Option (Nat × List Char) :=
  match cs with
  | c :: _ =>
    if c.isDigit then
      match parseDigitsAux cs 0 with
      | (n, rest) =>
        match rest with
        | e :: _ => if e = '.' || e = 'e' || e = 'E' then none else some (n, rest)
        | [] => some (n, [])
    else none
  | [] => none

mutual

/-- One JSON value, fuel-indexed recursive descent. -/
def parseVal : Nat → List Char → Option (JSON × List Char)
  | 0, _ => none
  | fuel + 1, cs =>
    match skipWs cs with
    | [] => none
    | c :: rest =>
      if c = '\x7b' then parseObjBody fuel rest
      else if c = '[' then parseArrBody fuel rest
      else if c = '"' then
        match parseStringAux rest with
        | some (s, rest2) => some (.str (String.mk s), rest2)
        | none => none
      else if c = 't' then
        match rest with
        | 'r' :: 'u' :: 'e' :: r => some (.bool true, r)
        | _ => none
      else if c = 'f' then
        match rest with
        | 'a' :: 'l' :: 's' :: 'e' :: r => some (.bool false, r)
        | _ => none
      else if c = 'n' then
        match rest with
        | 'u' :: 'l' :: 'l' :: r => some (.null, r)
        | _ => none
      else if c = '-' then
        match parseDigits rest with
        | some (n, r) => some (.num (-(n : Int)), r)
        | none => none
      else if c.isDigit then
        match parseDigits (c :: rest) with
        | some (n, r) => some (.num (n : Int), r)
        | none => none
      else none

/-- Object body, after the opening brace. -/
def parseObjBody : Nat → List Char → Option (JSON × List Char)
  | 0, _ => none
  | fuel + 1, cs =>
    match skipWs cs with
    | '\x7d' :: rest => some (.obj [], rest)
    | other => parseMembers fuel other []

/-- One or more comma-separated object members. -/
def parseMembers : Nat → List Char → List (String × JSON) → Option (JSON × List Char)
  | 0, _, _ => none
  | fuel + 1, cs, acc =>
    match cs with
    | '"' :: rest =>
      match parseStringAux rest with
      | some (kChars, rest2) =>
        match skipWs rest2 with
        | ':' :: rest3 =>
          match parseVal fuel rest3 with
          | some (v, rest4) =>
            match skipWs rest4 with
            | ',' :: rest5 => parseMembers fuel (skipWs rest5) (objInsert acc (String.mk kChars) v)
            | '\x7d' :: rest5 => some (.obj (objInsert acc (String.mk kChars) v), rest5)
            | _ => none
          | none => none
        | _ => none
      | none => none
    | _ => none

/-- Array body, after the opening bracket. -/
def parseArrBody : Nat → List Char → Option (JSON × List Char)
  | 0, _ => none
  | fuel + 1, cs =>
    match skipWs cs with
    | ']' :: rest => some (.arr [], rest)
    | other => parseItems fuel other []

/-- One or more comma-separated array items. -/
def parseItems : Nat → List Char → List JSON → Option (JSON × List Char)
  | 0, _, _ => none
  | fuel + 1, cs, acc =>
    match parseVal fuel cs with
    | some (v, rest) =>
      match skipWs rest with
      | ',' :: rest2 => parseItems fuel rest2 (acc ++ [v])
      | ']' :: rest2 => some (.arr (acc ++ [v]), rest2)
      | _ => none
    | none => none

end

/-- Parse a complete JSON document from text: one value, with only
whitespace allowed after it (Python raises on extra data). -/
def jsonParseChars (cs : List Char) : Option JSON :=
  match parseVal (cs.length + 1) cs with
  | some (v, rest) => if (skipWs rest).isEmpty then some v else none
  | none => none

/-- Is the byte a UTF-8 continuation byte. -/
def utf8Cont (b : Nat) : Bool := 128 ≤ b && b < 192

/-- Strict UTF-8 decoding of a byte list, as bytes.decode with the utf-8
codec: rejects truncated sequences, overlong encodings, surrogates and
code points above 0x10FFFF. -/
def utf8DecodeAux : Nat → List Nat → Option (List Char)
  | _, [] => some []
  | 0, _ :: _ => none
  | fuel + 1, b :: rest =>
    if b < 128 then
      match utf8DecodeAux fuel rest with
      | some cs => some (Char.ofNat b :: cs)
      | none => none
    else if b < 194 then none
    else if b < 224 then
      match rest with
      | b1 :: rest2 =>
        if utf8Cont b1 then
          match utf8DecodeAux fuel rest2 with
          | some cs => some (Char.ofNat ((b - 192) * 64 + (b1 - 128)) :: cs)
          | none => none
        else none
      | [] => none
    else if b < 240 then
      match rest with
      | b1 :: b2 :: rest2 =>
        if (if b = 224 then decide (160 ≤ b1) && decide (b1 < 192)
            else if b = 237 then decide (128 ≤ b1) && decide (b1 < 160)
            else utf8Cont b1) && utf8Cont b2 then
          match utf8DecodeAux fuel rest2 with
          | some cs => some (Char.ofNat ((b - 224) * 4096 + (b1 - 128) * 64 + (b2 - 128)) :: cs)
          | none => none
        else none
      | _ => none
    else if b < 245 then
      match rest with
      | b1 :: b2 :: b3 :: rest2 =>
        if (if b = 240 then decide (144 ≤ b1) && decide (b1 < 192)
            else if b = 244 then decide (128 ≤ b1) && decide (b1 < 144)
            else utf8Cont b1) && utf8Cont b2 && utf8Cont b3 then
          match utf8DecodeAux fuel rest2 with
          | some cs =>
            some (Char.ofNat ((b - 240) * 262144 + (b1 - 128) * 4096 + (b2 - 128) * 64 + (b3 - 128)) :: cs)
          | none => none
        else none
      | _ => none
    else none

/-- bytes.decode with the utf-8 codec. -/
def utf8Decode (bs : List Nat) : Option (List Char) := utf8DecodeAux bs.length bs

/-- Sites at which AsarVersioner.py raises autopkglib.ProcessorError, by the
message built there. -/
inductive ErrSite where
  | cantRead                  -- line 104: "Can't read {path}: {error}"
  | cantDetermineHeaderSize   -- line 112: "Can't determine header size of {path}: {error}"
  | cantFindPackageJson       -- line 139: "Can't find package JSON: {error}"
  | cantExtract               -- line 165: "Can't extract package info: {error}"
  | fileNotFound              -- line 182: "File '{input_asar_path}' was not found."
  | wrapped                   -- line 193: main wraps any other exception: ProcessorError(ex)

/-- Python exceptions that the embedded code can raise: the categorized
ProcessorError of autopkglib, and the uncaught library exceptions. -/
inductive PyError where
  | processorError (site : ErrSite)
  | structError           -- struct.error from struct.unpack
  | unicodeDecodeError    -- bytes.decode('utf-8') failure
  | jsonDecodeError       -- json.loads failure
  | keyError              -- dict subscript with a missing key
  | typeError             -- subscripting a non-dict, int(None), read(non-int)
  | attributeError        -- .get on a non-dict
  | valueError            -- int() on a non-numeric string
  | osError               -- seek to a negative offset
  | nameError             -- reference to an unbound variable

/-- json.loads applied to a byte string: utf-8 decode, then parse. -/
def jsonLoads (bs : List Nat) : Except PyError JSON :=
  match utf8Decode bs with
  | none => .error .unicodeDecodeError
  | some s =>
    match jsonParseChars s with
    | none => .error .jsonDecodeError
    | some j => .ok j

/-- An open binary file handle: the file's bytes and the cursor position
(which may sit beyond the end of the data, as after a Python seek). -/
structure Handle where
  data : List Nat
  pos : Nat

/-- file.seek(n) with an absolute non-negative position. -/
def Handle.seekTo (h : Handle) (n : Nat) : Handle := ⟨h.data, n⟩

/-- file.seek(n) with a possibly negative computed position: CPython raises
OSError or ValueError on a negative seek target. -/
def Handle.seekI (h : Handle) (n : Int) : Except PyError Handle :=
  if n < 0 then .error .osError else .ok ⟨h.data, n.toNat⟩

/-- file.read(n) for a non-negative count: returns up to n bytes from the
cursor and advances the cursor by the number of bytes actually read. -/
def Handle.readN (h : Handle) (n : Nat) : List Nat × Handle :=
  ((h.data.drop h.pos).take n, ⟨h.data, h.pos + ((h.data.drop h.pos).take n).length⟩)

/-- file.read(n) for a Python int argument: a negative count reads to end
of file (CPython treats any negative size as read-all). -/
def Handle.readI (h : Handle) (n : Int) : List Nat × Handle :=
  if n < 0 then
    (h.data.drop h.pos, ⟨h.data, h.pos + (h.data.drop h.pos).length⟩)
  else h.readN n.toNat

/-- struct.unpack('I', bs): demands a buffer of exactly 4 bytes (else
struct.error) and yields a 1-tuple holding the little-endian 32-bit value. -/
def structUnpackI (bs : List Nat) : Option (List Nat) :=
  match bs with
  | [b0, b1, b2, b3] => some [b0 + 256 * b1 + 65536 * b2 + 16777216 * b3]
  | _ => none

/-- Little-endian 4-byte encoding of a 32-bit value, for describing archive
size fields in theorem hypotheses and for building concrete archives. -/
def le32 (n : Nat) : List Nat :=
  [n % 256, n / 256 % 256, n / 65536 % 256, n / 16777216 % 256]

/-- UTF-8 bytes of an ASCII string, for building concrete archives. -/
def strBytes (s : String) : List Nat := s.data.map Char.toNat

/-- Leading-whitespace stripping for Python's int(). -/
def dropWsChars : List Char → List Char
  | c :: rest =>
    if c = ' ' || c = '\t' || c = '\n' || c = '\r' then dropWsChars rest else c :: rest
  | [] => []

/-- Value of a non-empty all-digit character list. -/
def decDigitsVal (cs : List Char) : Option Nat :=
  if cs.isEmpty then none
  else if cs.all Char.isDigit then
    some (cs.foldl (fun a c => a * 10 + (c.toNat - 48)) 0)
  else none

/-- Python int(s) on a str: strip surrounding whitespace, optional sign,
decimal digits; anything else raises ValueError (returned as none). -/
def pyIntOfString (s : String) : Option Int :=
  match dropWsChars (dropWsChars s.data.reverse).reverse with
  | '-' :: ds => (decDigitsVal ds).map (fun n => -(n : Int))
  | '+' :: ds => (decDigitsVal ds).map (fun n => (n : Int))
  | ds => (decDigitsVal ds).map (fun n => (n : Int))

/-- Python int(x) on the values that can come out of a JSON tree:
int(None) and int(dict/list) raise TypeError, int(str) parses decimally. -/
def pyInt (x : Option JSON) : Except PyError Int :=
  match x with
  | some (.num n) => .ok n
  | some (.bool b) => .ok (if b then 1 else 0)
  | some (.str s) =>
    match pyIntOfString s with
    | some n => .ok n
    | none => .error .valueError
  | some _ => .error .typeError
  | none => .error .typeError

/-- Python subscript j[key]: KeyError when a dict lacks the key, TypeError
when j is not a dict. -/
def jsonSubscript (j : JSON) (key : String) : Except PyError JSON :=
  match j with
  | .obj kvs =>
    match assocLookup kvs key with
    | some v => .ok v
    | none => .error .keyError
  | _ => .error .typeError

/-- Python j.get(key): AttributeError when j is not a dict, else the value
or None. -/
def dictGet (j : JSON) (key : String) : Except PyError (Option JSON) :=
  match j with
  | .obj kvs => .ok (assocLookup kvs key)
  | _ => .error .attributeError

/-- Python j.get(key, default). -/
def dictGetDefault (j : JSON) (key : String) (d : JSON) : Except PyError JSON :=
  match j with
  | .obj kvs => .ok ((assocLookup kvs key).getD d)
  | _ => .error .attributeError

/-- file.read(x) where x came out of a JSON tree: read(None) reads all,
read(int) reads that many, read(anything else) raises TypeError. -/
def readArg (h : Handle) (x : Option JSON) : Except PyError (List Nat × Handle) :=
  match x with
  | none => .ok (h.readI (-1))
  | some (.num n) => .ok (h.readI n)
  | some (.bool b) => .ok (h.readI (if b then 1 else 0))
  | some _ => .error .typeError

/-- AsarVersioner._asar_opener (AsarVersioner.py lines 92-127), with the
archive path replaced by the file's bytes (the open() call of line 103 is
modelled as always succeeding; its failure branch raises
ProcessorError cantRead before any handle exists).  Mirrors the source
line by line: seek(4); unpack the 4-byte size field (struct.error on a
short read); the dead guard len(header_size) <= 0, whose body's f-string
references the name error, unbound at that point, so executing it would
raise NameError; header_size = header_size[0] - 8 (an int, possibly
negative); seek(tell() + 8); read(header_size); decode('utf-8');
json.loads; base_offset = tell(). -/
def asar_opener (data : List Nat) : Except PyError (Handle × JSON × Nat) :=
  let h1 := Handle.seekTo ⟨data, 0⟩ 4
  let r := h1.readN 4
  match structUnpackI r.1 with
  | none => .error .structError
  | some t =>
    if t.length ≤ 0 then .error .nameError
    else
      let headerSize : Int := (t.headD 0 : Int) - 8
      let h3 := r.2.seekTo (r.2.pos + 8)
      let hr := h3.readI headerSize
      match utf8Decode hr.1 with
      | none => .error .unicodeDecodeError
      | some s =>
        match jsonParseChars s with
        | none => .error .jsonDecodeError
        | some json_header => .ok (hr.2, json_header, hr.2.pos)

/-- The tail of AsarVersioner._extract_package_json (lines 141-147), after
the entry lookup: absolute_offset = int(entry.get("offset")) + base_offset;
seek; json.loads(read(entry.get("size"))).  Split out so that the flat
lookup of lines 136-140 is visibly the only place the entry name is used. -/
def processEntry (asar_file : Handle) (base_offset : Nat) (package_json : JSON) :
    Except PyError JSON :=
  match dictGet package_json "offset" with
  | .error e => .error e
  | .ok off? =>
    match pyInt off? with
    | .error e => .error e
    | .ok off =>
      match asar_file.seekI (off + (base_offset : Int)) with
      | .error e => .error e
      | .ok h2 =>
        match dictGet package_json "size" with
        | .error e => .error e
        | .ok size? =>
          match readArg h2 size? with
          | .error e => .error e
          | .ok (bs, _) => jsonLoads bs

/-- AsarVersioner._extract_package_json (lines 129-147): the flat lookup
json_header["files"][package_json_name] with every exception of the two
subscripts caught and rewrapped as ProcessorError "Can't find package
JSON", followed by processEntry, whose exceptions are not caught here. -/
def extract_package_json (asar_file : Handle) (json_header : JSON) (base_offset : Nat)
    (pkgName : String) : Except PyError JSON :=
  match (jsonSubscript json_header "files").bind (fun fs => jsonSubscript fs pkgName) with
  | .error _ => .error (.processorError .cantFindPackageJson)
  | .ok package_json => processEntry asar_file base_offset package_json

/-- AsarVersioner.get_asar_info (lines 149-168).  The Bool records whether
the archive handle has been closed when the call returns: the call to
_asar_opener sits outside the try/finally, so an exception raised inside
_asar_opener after the open() propagates with the handle still open
(false); once _asar_opener has returned, the finally block closes the
handle on both the return path and the ProcessorError-wrapping path
(true).  Any exception from _extract_package_json, including its own
ProcessorError, is rewrapped as ProcessorError "Can't extract package
info". -/
def get_asar_info (data : List Nat) (pkgName : String) : Except PyError JSON × Bool :=
  match asar_opener data with
  | .error e => (.error e, false)
  | .ok (asar_file, json_header, base_offset) =>
    match extract_package_json asar_file json_header base_offset pkgName with
    | .ok v => (.ok v, true)
    | .error _ => (.error (.processorError .cantExtract), true)

/-- The sentinel of AsarVersioner.py line 34, as the Python str value. -/
def UNKNOWN_VERSION : JSON := .str "UNKNOWN_VERSION"

/-- The processor environment state that AsarVersioner.main mutates: the
output variable self.env["version"].  The input variables are passed as
arguments. -/
structure Env where
  version : Option JSON

/-- AsarVersioner.main (lines 170-193), for an archive that upstream path
resolution (autopkglib's _read_auto_detect, outside this repository and
out of the spec's scope) has located and whose bytes are data: calls
get_asar_info, then version = asar_dict.get(version_key, UNKNOWN_VERSION)
and stores it in env; a ProcessorError is re-raised as is, any other
exception is wrapped as ProcessorError(ex); on an exception, env is
unchanged. -/
def mainRun (data : List Nat) (pkgName verKey : String) (e : Env) :
    Except PyError JSON × Env :=
  match (get_asar_info data pkgName).1 with
  | .ok asar_dict =>
    match dictGetDefault asar_dict verKey UNKNOWN_VERSION with
    | .ok v => (.ok v, ⟨some v⟩)
    | .error _ => (.error (.processorError .wrapped), e)
  | .error err =>
    match err with
    | .processorError s => (.error (.processorError s), e)
    | _ => (.error (.processorError .wrapped), e)

/-- Eight zero bytes (the format padding region of a concrete archive). -/
def zeros8 : List Nat := [0, 0, 0, 0, 0, 0, 0, 0]

/-- The 39-character header text used by the concrete archives below. -/
def asarHeader39 : String :=
  "\x7b\"files\":\x7b\"a\":\x7b\"size\":2,\"offset\":\"0\"\x7d\x7d\x7d"

/-- The decoded header tree of asarHeader39. -/
def asarTree39 : JSON :=
  .obj [("files", .obj [("a", .obj [("size", .num 2), ("offset", .str "0")])])]

/-- A well-formed 57-byte archive: size field 47 = 8 + 39, the 39-byte
header asarHeader39, and entry a of size 2 at offset 0 holding the two
bytes of the JSON text of the empty object. -/
def goodData : List Nat :=
  [0, 0, 0, 0] ++ le32 47 ++ zeros8 ++ strBytes asarHeader39 ++ strBytes "\x7b\x7d"

/-- goodData truncated right after DataBaseOffset + 1: entry a still
declares size 2, but only the single byte of the digit 1 is present. -/
def truncData : List Nat :=
  [0, 0, 0, 0] ++ le32 47 ++ zeros8 ++ strBytes asarHeader39 ++ strBytes "1"

/-- A 17-byte archive whose size field encodes 0 (so V < 8): after the
padding it carries the single byte of the digit 1. -/
def negSizeData : List Nat := [0, 0, 0, 0] ++ le32 0 ++ zeros8 ++ strBytes "1"

/-- A 17-byte archive with size field 9, whose 1-byte header text x is not
valid JSON. -/
def badJsonData : List Nat := [0, 0, 0, 0] ++ le32 9 ++ zeros8 ++ strBytes "x"

/-- A 17-byte archive with size field 7 (V < 8) whose trailing byte 255 is
not valid UTF-8. -/
def badUtf8Data : List Nat := [0, 0, 0, 0] ++ le32 7 ++ zeros8 ++ [255]

/-- A 5-byte archive: only one byte is available for the 4-byte size field
at offset 4. -/
def shortData : List Nat := [0, 0, 0, 0, 7]

/-- Reading back the little-endian size field: struct.unpack('I', ...) on
the 4-byte encoding of a value below 2^32 yields the 1-tuple of that value. -/
theorem structUnpackI_le32 (V : Nat) (hV : V < 4294967296) :
    structUnpackI (le32 V) = some [V] := by
  have h : structUnpackI (le32 V) =
      some [V % 256 + 256 * (V / 256 % 256) + 65536 * (V / 65536 % 256) +
        16777216 * (V / 16777216 % 256)] := rfl
  have h2 : V % 256 + 256 * (V / 256 % 256) + 65536 * (V / 65536 % 256) +
      16777216 * (V / 16777216 % 256) = V := by omega
  rw [h, h2]

/-- Evaluation of _asar_opener on an archive whose size field holds
8 + L with at least 16 + L bytes present: the header read is the L-byte
slice starting at offset 16, and on a successful decode and parse the
returned base offset is 16 + L. -/
theorem opener_eval_ok (data : List Nat) (L : Nat) (tree : JSON)
    (hsz : (data.drop 4).take 4 = le32 (8 + L))
    (hV : 8 + L < 4294967296)
    (hlen : 16 + L ≤ data.length)
    (hj : jsonLoads ((data.drop 16).take L) = .ok tree) :
    asar_opener data = .ok (⟨data, 16 + L⟩, tree, 16 + L) := by
  obtain ⟨s, hu, hp⟩ : ∃ s, utf8Decode ((data.drop 16).take L) = some s ∧
      jsonParseChars s = some tree := by
    unfold jsonLoads at hj
    cases hu : utf8Decode ((data.drop 16).take L) with
    | none => rw [hu] at hj; simp at hj
    | some s =>
      rw [hu] at hj
      have hj2 : (match jsonParseChars s with
          | none => (Except.error PyError.jsonDecodeError : Except PyError JSON)
          | some j => Except.ok j) = Except.ok tree := hj
      cases hp : jsonParseChars s with
      | none => rw [hp] at hj2; simp at hj2
      | some j =>
        rw [hp] at hj2
        simp only [Except.ok.injEq] at hj2
        exact ⟨s, rfl, by rw [hp, hj2]⟩
  have hlen4 : (le32 (8 + L)).length = 4 := rfl
  have htake : ((data.drop 16).take ((((8 + L : Nat) : Int) - 8).toNat)) =
      (data.drop 16).take L := by
    congr 1
    omega
  have hslicelen : ((data.drop 16).take L).length = L := by
    simp [List.length_take, List.length_drop]
    omega
  unfold asar_opener
  simp only [Handle.seekTo, Handle.readN, Handle.readI]
  rw [hsz, hlen4, structUnpackI_le32 (8 + L) hV]
  simp only [List.length_cons, List.length_nil, List.headD_cons]
  rw [if_neg (show ¬ ((0 : Nat) + 1 ≤ 0) by omega)]
  rw [if_neg (show ¬ (((8 + L : Nat) : Int) - 8 < 0) by omega)]
  simp only [htake, hu, hp, hslicelen]

/-- Evaluation of _asar_opener on an archive whose size field holds V < 8:
header_size is computed negative, read(header_size) therefore reads all
remaining bytes (CPython read-to-EOF on a negative size), and the opener's
outcome is json.loads of everything after byte 16, with the base offset at
end of file on success. -/
theorem opener_eval_neg (data : List Nat) (V : Nat)
    (hsz : (data.drop 4).take 4 = le32 V)
    (hV : V < 8)
    (hlen : 16 ≤ data.length) :
    asar_opener data = (match jsonLoads (data.drop 16) with
      | .error e => .error e
      | .ok j => .ok (⟨data, data.length⟩, j, data.length)) := by
  have hlen4 : (le32 V).length = 4 := rfl
  have hdl : (16 : Nat) + (data.drop 16).length = data.length := by
    simp [List.length_drop]
    omega
  unfold asar_opener jsonLoads
  simp only [Handle.seekTo, Handle.readN, Handle.readI]
  rw [hsz, hlen4, structUnpackI_le32 V (by omega)]
  simp only [List.length_cons, List.length_nil, List.headD_cons]
  rw [if_neg (show ¬ ((0 : Nat) + 1 ≤ 0) by omega)]
  rw [if_pos (show ((V : Nat) : Int) - 8 < 0 by omega)]
  norm_num
  cases hu : utf8Decode (data.drop 16) with
  | none => simp [hu]
  | some s =>
    cases hp : jsonParseChars s with
    | none => simp [hu, hp]
    | some j =>
      simp [hu, hp]
      omega

/-- Evaluation of _extract_package_json on a header whose top-level files
map carries the requested name with an integer size and a decimal-string
offset: the result is exactly json.loads of the bytes the handle yields at
absolute offset k + base, at most N of them, with no check that N bytes
were actually available. -/
theorem extract_entry_eval (data : List Nat) (p base N k : Nat) (pkgName Kstr : String)
    (fkv : List (String × JSON))
    (hfind : assocLookup fkv pkgName =
      some (.obj [("size", .num (N : Int)), ("offset", .str Kstr)]))
    (hK : pyIntOfString Kstr = some (k : Int)) :
    extract_package_json ⟨data, p⟩ (.obj [("files", .obj fkv)]) base pkgName
      = jsonLoads ((data.drop (k + base)).take N) := by
  have htn : (((k : Nat) : Int) + ((base : Nat) : Int)).toNat = k + base := by omega
  have htN : (((N : Nat) : Int)).toNat = N := by omega
  unfold extract_package_json
  rw [show jsonSubscript (JSON.obj [("files", JSON.obj fkv)]) "files"
      = Except.ok (JSON.obj fkv) from rfl]
  simp only [Except.bind]
  rw [show jsonSubscript (JSON.obj fkv) pkgName =
      (match assocLookup fkv pkgName with
       | some v => Except.ok v
       | none => Except.error PyError.keyError) from rfl, hfind]
  simp only []
  unfold processEntry
  rw [show dictGet (JSON.obj [("size", JSON.num (N : Int)), ("offset", JSON.str Kstr)]) "offset"
      = Except.ok (some (JSON.str Kstr)) from rfl]
  simp only []
  rw [show pyInt (some (JSON.str Kstr)) =
      (match pyIntOfString Kstr with
       | some n => Except.ok n
       | none => Except.error PyError.valueError) from rfl, hK]
  simp only []
  unfold Handle.seekI
  rw [if_neg (show ¬ (((k : Nat) : Int) + ((base : Nat) : Int) < 0) by omega)]
  simp only []
  rw [show dictGet (JSON.obj [("size", JSON.num (N : Int)), ("offset", JSON.str Kstr)]) "size"
      = Except.ok (some (JSON.num (N : Int))) from rfl]
  simp only []
  unfold readArg Handle.readI
  simp only []
  rw [if_neg (show ¬ (((N : Nat) : Int) < 0) by omega)]
  simp only [htn, htN]
  unfold Handle.readN
  simp only []

/-- Claim C1: round-trip correctness.  For every archive whose size field
at bytes 4-7 encodes V = 8 + L, whose bytes 16..16+L decode and parse as
the JSON header with files mapping pkgName to size N and offset the
decimal string Kstr (value k), and whose N bytes at (16+L)+k parse as the
JSON value v, _asar_opener reads exactly L = V - 8 header bytes and
returns DataBaseOffset 16 + L, and _extract_package_json returns exactly
v; get_asar_info returns v with the handle closed. -/
theorem asar_round_trip (data : List Nat) (L N k : Nat) (pkgName Kstr : String) (v : JSON)
    (hsz : (data.drop 4).take 4 = le32 (8 + L))
    (hV : 8 + L < 4294967296)
    (hdlen : 16 + L ≤ data.length)
    (hhdr : jsonLoads ((data.drop 16).take L) = .ok (.obj [("files",
      .obj [(pkgName, .obj [("size", .num (N : Int)), ("offset", .str Kstr)])])]))
    (hK : pyIntOfString Kstr = some (k : Int))
    (havail : k + (16 + L) + N ≤ data.length)
    (hent : jsonLoads ((data.drop (k + (16 + L))).take N) = .ok v) :
    asar_opener data = .ok (⟨data, 16 + L⟩, .obj [("files",
        .obj [(pkgName, .obj [("size", .num (N : Int)), ("offset", .str Kstr)])])], 16 + L)
    ∧ extract_package_json ⟨data, 16 + L⟩ (.obj [("files",
        .obj [(pkgName, .obj [("size", .num (N : Int)), ("offset", .str Kstr)])])])
        (16 + L) pkgName = .ok v
    ∧ get_asar_info data pkgName = (.ok v, true) := by
  have hop := opener_eval_ok data L _ hsz hV hdlen hhdr
  have hex := extract_entry_eval data (16 + L) (16 + L) N k pkgName Kstr
      [(pkgName, .obj [("size", .num (N : Int)), ("offset", .str Kstr)])]
      (by simp [assocLookup]) hK
  rw [hent] at hex
  refine ⟨hop, hex, ?_⟩
  unfold get_asar_info
  rw [hop]
  simp only []
  rw [hex]

/-- Witness for C1 at the concrete 57-byte archive goodData: entry a of
declared size 2 at offset 0 holds the two bytes of an empty JSON object,
and extraction returns it. -/
theorem asar_round_trip_witness :
    get_asar_info goodData "a" = (.ok (JSON.obj []), true) :=
  (asar_round_trip goodData 39 2 0 "a" "0" (JSON.obj [])
    rfl (by decide) (by decide) rfl rfl (by decide) rfl).2.2

/-- Counterexample to C2: on the archive badJsonData, whose 1-byte header
text is not valid JSON, get_asar_info propagates the json.loads error with
the handle still open (closed-flag false): the _asar_opener call stands
outside the try/finally of get_asar_info, so no close runs. -/
theorem asar_handle_leak_counterexample :
    get_asar_info badJsonData "a" = (.error .jsonDecodeError, false) := rfl

/-- Claim C2 as amended: the handle is closed on return and on every error
raised after _asar_opener has returned successfully, but an error raised
inside _asar_opener after the open() propagates raw with the handle left
open. -/
theorem asar_handle_close_amended (data : List Nat) (pkgName : String) :
    (∀ t, asar_opener data = .ok t → (get_asar_info data pkgName).2 = true)
  ∧ (∀ e, asar_opener data = .error e → get_asar_info data pkgName = (.error e, false)) := by
  constructor
  · rintro ⟨h, j, b⟩ ht
    unfold get_asar_info
    rw [ht]
    simp only []
    cases hx : extract_package_json h j b pkgName <;> simp
  · intro e he
    unfold get_asar_info
    rw [he]

/-- Witness for C2's amended statement at the concrete archive goodData,
on which _asar_opener succeeds: the handle ends closed. -/
theorem asar_handle_close_amended_witness :
    (get_asar_info goodData "a").2 = true :=
  (asar_handle_close_amended goodData "a").1 (⟨goodData, 55⟩, asarTree39, 55) rfl

/-- Counterexample to C3: on the archive negSizeData, whose size field
encodes V = 0 < 8, header parsing does not fail: read(-8) reads to end of
file, the trailing byte parses as the JSON number 1, and _asar_opener
returns successfully. -/
theorem asar_neg_size_counterexample :
    asar_opener negSizeData = .ok (⟨negSizeData, 17⟩, JSON.num 1, 17) := rfl

/-- Claim C3 as amended: for V < 8 the computed header size is negative
and read(header_size) reads all bytes from offset 16 to end of file
(CPython negative read); the opener then succeeds or fails exactly as
json.loads does on those bytes, with no FormatError for the negative
size and no error raised by the read itself. -/
theorem asar_neg_size_amended (data : List Nat) (V : Nat)
    (hsz : (data.drop 4).take 4 = le32 V)
    (hV : V < 8)
    (hlen : 16 ≤ data.length) :
    (∀ e, jsonLoads (data.drop 16) = .error e → asar_opener data = .error e)
  ∧ (∀ j, jsonLoads (data.drop 16) = .ok j →
      asar_opener data = .ok (⟨data, data.length⟩, j, data.length)) := by
  have h := opener_eval_neg data V hsz hV hlen
  constructor
  · intro e he
    rw [h, he]
  · intro j hj
    rw [h, hj]

/-- Witness for C3's amended statement at the concrete archive badUtf8Data
(size field 7 < 8): the read-to-EOF bytes fail UTF-8 decoding and exactly
that error propagates. -/
theorem asar_neg_size_amended_witness :
    asar_opener badUtf8Data = .error .unicodeDecodeError :=
  (asar_neg_size_amended badUtf8Data 7 rfl (by decide) (by decide)).1
    .unicodeDecodeError rfl

/-- Counterexample to C4: truncData declares entry a with size 2 but ends
one byte after DataBaseOffset; the short 1-byte read parses as the JSON
number 1 and extraction silently succeeds instead of failing. -/
theorem asar_truncation_counterexample :
    get_asar_info truncData "a" = (.ok (JSON.num 1), true) ∧ truncData.length = 56 :=
  ⟨rfl, rfl⟩

/-- Claim C4 as amended: extraction performs no length check on the entry
read; it hands whatever bytes are available (at most size many) to
json.loads, so a truncated entry fails only when the truncated bytes do
not parse as JSON, and a truncated prefix that parses is silently
accepted as the result. -/
theorem asar_truncation_amended (data : List Nat) (p base N k : Nat)
    (pkgName Kstr : String) (fkv : List (String × JSON))
    (hfind : assocLookup fkv pkgName =
      some (.obj [("size", .num (N : Int)), ("offset", .str Kstr)]))
    (hK : pyIntOfString Kstr = some (k : Int)) :
    (∀ v, jsonLoads ((data.drop (k + base)).take N) = .ok v →
      extract_package_json ⟨data, p⟩ (.obj [("files", .obj fkv)]) base pkgName = .ok v)
  ∧ (∀ e, jsonLoads ((data.drop (k + base)).take N) = .error e →
      extract_package_json ⟨data, p⟩ (.obj [("files", .obj fkv)]) base pkgName = .error e) := by
  have h := extract_entry_eval data p base N k pkgName Kstr fkv hfind hK
  exact ⟨fun v hv => by rw [h, hv], fun e he => by rw [h, he]⟩

/-- Witness for C4's amended statement on truncData: only 1 byte is
available for the size-2 entry, yet extraction returns the JSON value of
that 1-byte prefix. -/
theorem asar_truncation_amended_witness :
    extract_package_json ⟨truncData, 55⟩
      (JSON.obj [("files", JSON.obj [("a", JSON.obj [("size", JSON.num 2), ("offset", JSON.str "0")])])])
      55 "a" = .ok (JSON.num 1) :=
  (asar_truncation_amended truncData 55 55 2 0 "a" "0"
    [("a", JSON.obj [("size", JSON.num 2), ("offset", JSON.str "0")])] rfl rfl).1
    (JSON.num 1) rfl

/-- Claim C5: when the top-level files map of the parsed header lacks the
requested entry name, _extract_package_json fails with the categorized
ProcessorError of the lookup branch ("Can't find package JSON"), and in
particular the raw KeyError of the map access never escapes. -/
theorem asar_unknown_entry (h : Handle) (base : Nat) (pkgName : String)
    (kvs fkv : List (String × JSON))
    (hfiles : assocLookup kvs "files" = some (.obj fkv))
    (hmiss : assocLookup fkv pkgName = none) :
    extract_package_json h (.obj kvs) base pkgName
      = .error (.processorError .cantFindPackageJson)
    ∧ extract_package_json h (.obj kvs) base pkgName ≠ .error .keyError := by
  have hmain : extract_package_json h (.obj kvs) base pkgName
      = .error (.processorError .cantFindPackageJson) := by
    unfold extract_package_json
    rw [show jsonSubscript (JSON.obj kvs) "files" =
        (match assocLookup kvs "files" with
         | some v => Except.ok v
         | none => Except.error PyError.keyError) from rfl, hfiles]
    simp only []
    simp only [Except.bind]
    rw [show jsonSubscript (JSON.obj fkv) pkgName =
        (match assocLookup fkv pkgName with
         | some v => Except.ok v
         | none => Except.error PyError.keyError) from rfl, hmiss]
  exact ⟨hmain, by rw [hmain]; simp⟩

/-- Witness for C5 at a concrete header with an empty files map. -/
theorem asar_unknown_entry_witness :
    extract_package_json ⟨[], 0⟩ (JSON.obj [("files", JSON.obj [])]) 0 "a"
      = .error (.processorError .cantFindPackageJson) :=
  (asar_unknown_entry ⟨[], 0⟩ 0 "a" [("files", JSON.obj [])] [] rfl rfl).1

/-- Claim C6: entry resolution is a single flat lookup in the top-level
files map.  When the requested name appears only inside a nested files
sub-map (hnest, hsub) and not as a direct key (hmiss), extraction fails
with the lookup ProcessorError; and whenever the name is a direct key,
the result is determined by that entry alone (processEntry), with the
name never split on path separators. -/
theorem asar_flat_lookup (h : Handle) (base : Nat) (pkgName d : String)
    (fkv sub : List (String × JSON)) (nested : JSON)
    (hmiss : assocLookup fkv pkgName = none)
    (hnest : assocLookup fkv d = some (.obj [("files", .obj sub)]))
    (hsub : assocLookup sub pkgName = some nested) :
    extract_package_json h (.obj [("files", .obj fkv)]) base pkgName
      = .error (.processorError .cantFindPackageJson)
    ∧ ∀ (fkv2 : List (String × JSON)) (entry : JSON),
        assocLookup fkv2 pkgName = some entry →
        extract_package_json h (.obj [("files", .obj fkv2)]) base pkgName
          = processEntry h base entry := by
  constructor
  · unfold extract_package_json
    rw [show jsonSubscript (JSON.obj [("files", JSON.obj fkv)]) "files"
        = Except.ok (JSON.obj fkv) from rfl]
    simp only [Except.bind]
    rw [show jsonSubscript (JSON.obj fkv) pkgName =
        (match assocLookup fkv pkgName with
         | some v => Except.ok v
         | none => Except.error PyError.keyError) from rfl, hmiss]
  · intro fkv2 entry hfind
    unfold extract_package_json
    rw [show jsonSubscript (JSON.obj [("files", JSON.obj fkv2)]) "files"
        = Except.ok (JSON.obj fkv2) from rfl]
    simp only [Except.bind]
    rw [show jsonSubscript (JSON.obj fkv2) pkgName =
        (match assocLookup fkv2 pkgName with
         | some v => Except.ok v
         | none => Except.error PyError.keyError) from rfl, hfind]

/-- Witness for C6 at a concrete header where entry a exists only inside
the nested files map of directory dir: the flat lookup does not find it. -/
theorem asar_flat_lookup_witness :
    extract_package_json ⟨[], 0⟩
      (JSON.obj [("files", JSON.obj
        [("dir", JSON.obj [("files", JSON.obj [("a", JSON.num 1)])])])])
      0 "a" = .error (.processorError .cantFindPackageJson) :=
  (asar_flat_lookup ⟨[], 0⟩ 0 "a" "dir"
    [("dir", JSON.obj [("files", JSON.obj [("a", JSON.num 1)])])]
    [("a", JSON.num 1)] (JSON.num 1) rfl rfl rfl).1

/-- Claim C7: when get_asar_info yields a JSON object, main succeeds and
stores asar_dict.get(version_key, UNKNOWN_VERSION): the sentinel string
when the requested key is absent, the key's value when present. -/
theorem asar_version_key_fallback (data : List Nat) (pkgName verKey : String) (e : Env)
    (kvs : List (String × JSON)) (c : Bool)
    (hx : get_asar_info data pkgName = (.ok (.obj kvs), c)) :
    (assocLookup kvs verKey = none →
        mainRun data pkgName verKey e = (.ok UNKNOWN_VERSION, ⟨some UNKNOWN_VERSION⟩))
  ∧ (∀ v, assocLookup kvs verKey = some v →
        mainRun data pkgName verKey e = (.ok v, ⟨some v⟩)) := by
  have h1 : (get_asar_info data pkgName).1 = .ok (.obj kvs) := by rw [hx]
  constructor
  · intro hnone
    unfold mainRun
    rw [h1]
    simp only []
    rw [show dictGetDefault (JSON.obj kvs) verKey UNKNOWN_VERSION
        = Except.ok ((assocLookup kvs verKey).getD UNKNOWN_VERSION) from rfl, hnone]
    rfl
  · intro v hv
    unfold mainRun
    rw [h1]
    simp only []
    rw [show dictGetDefault (JSON.obj kvs) verKey UNKNOWN_VERSION
        = Except.ok ((assocLookup kvs verKey).getD UNKNOWN_VERSION) from rfl, hv]
    rfl

/-- Witness for C7 on goodData, whose extracted entry is the empty JSON
object: the key version is absent and main yields the sentinel. -/
theorem asar_version_key_fallback_witness :
    mainRun goodData "a" "version" ⟨none⟩ = (.ok UNKNOWN_VERSION, ⟨some UNKNOWN_VERSION⟩) :=
  (asar_version_key_fallback goodData "a" "version" ⟨none⟩ [] true rfl).1 rfl

/-- Claim C8 (the code): on an archive with fewer than 8 bytes, read(4) at
offset 4 returns fewer than 4 bytes and struct.unpack raises struct.error,
which propagates raw out of _asar_opener and get_asar_info (the handle
also stays open); no ProcessorError carrying a truncated-or-corrupt-header
diagnosis is raised, because the guard meant to catch this case compares
the tuple length instead of the byte count and is unreachable. -/
theorem asar_short_size_field (pkgName : String) :
    get_asar_info shortData pkgName = (.error .structError, false)
    ∧ shortData.length = 5 :=
  ⟨rfl, rfl⟩

/-- Claim C9: the whole open/parse/extract/close operation carries no
state between invocations: running main a second time from the
environment produced by a first run returns exactly the first run's
result and environment. -/
theorem asar_idempotent (data : List Nat) (pkgName verKey : String) (e : Env) :
    mainRun data pkgName verKey (mainRun data pkgName verKey e).2
      = mainRun data pkgName verKey e := by
  unfold mainRun
  cases hr : (get_asar_info data pkgName).1 with
  | ok v =>
    cases hd : dictGetDefault v verKey UNKNOWN_VERSION with
    | ok w => simp only [hd]
    | error err => simp only [hd]
  | error err => cases err <;> simp only []

/-- Claim C10: struct.unpack('I', ...) yields a 1-tuple whenever it
succeeds, so the guard len(header_size) <= 0 in _asar_opener is false on
every input on which the unpack succeeded, and the guarded branch — whose
body, referencing the unbound name error, is modelled as raising
NameError — is unreachable: _asar_opener never produces that NameError. -/
theorem asar_dead_guard :
    (∀ (bs t : List Nat), structUnpackI bs = some t → t.length = 1)
  ∧ ∀ (data : List Nat), asar_opener data ≠ .error .nameError := by
  have hlen : ∀ (bs t : List Nat), structUnpackI bs = some t → t.length = 1 := by
    intro bs t h
    rcases bs with _ | ⟨b0, bs⟩
    · simp [structUnpackI] at h
    rcases bs with _ | ⟨b1, bs⟩
    · simp [structUnpackI] at h
    rcases bs with _ | ⟨b2, bs⟩
    · simp [structUnpackI] at h
    rcases bs with _ | ⟨b3, bs⟩
    · simp [structUnpackI] at h
    rcases bs with _ | ⟨b4, bs⟩
    · rw [show structUnpackI [b0, b1, b2, b3]
          = some [b0 + 256 * b1 + 65536 * b2 + 16777216 * b3] from rfl] at h
      injection h with h2
      rw [← h2]
      rfl
    · simp [structUnpackI] at h
  refine ⟨hlen, ?_⟩
  intro data hcontra
  unfold asar_opener at hcontra
  simp only [Handle.seekTo, Handle.readN, Handle.readI] at hcontra
  cases hs : structUnpackI ((data.drop 4).take 4) with
  | none =>
    rw [hs] at hcontra
    simp at hcontra
  | some t =>
    rw [hs] at hcontra
    have h1 : t.length = 1 := hlen _ _ hs
    simp only [] at hcontra
    rw [if_neg (show ¬ (t.length ≤ 0) by omega)] at hcontra
    split at hcontra
    · simp at hcontra
    · split at hcontra
      · simp at hcontra
      · simp at hcontra

/-- Witness for C10: the unpack of a concrete 4-byte field yields a tuple
of length one, and a concrete run of the opener does not hit the dead
branch. -/
theorem asar_dead_guard_witness :
    (([1] : List Nat).length = 1) ∧ asar_opener [] ≠ .error .nameError :=
  ⟨asar_dead_guard.1 [1, 0, 0, 0] [1] rfl, asar_dead_guard.2 []⟩
